import Mathlib

/-!
Formal model of the ICMP echo ("ping") probe implemented in `src/main.rs`.

Bytes are modelled as natural numbers (values of Rust `u8`, i.e. `< 256`);
16-bit quantities as naturals `< 65536`, with wrap-around written explicitly
as `% 65536` where the Rust code relies on `overflowing_add`.  Rust's
`to_ne_bytes` / `from_ne_bytes` depend on the host's native endianness, so
every function that touches them is parametrised by an `Endian` value.
Fallible Rust code (returning `Option`) is modelled with `Option`; a Rust
panic (out-of-bounds slice index, `expect` on `Err`) is modelled as an
explicit extra constructor or `Except.error`, so that the model distinguishes
"returned None" from "crashed".
-/

/-- Native byte order of the host: Rust's `to_ne_bytes`/`from_ne_bytes`
depend on this. -/
inductive Endian where
  | little
  | big
deriving DecidableEq

/-- Model of `u16::to_ne_bytes`: the two bytes of `x` (a value `< 65536`) in
the host's native order. -/
def toNeBytes (e : Endian) (x : Nat) : List Nat :=
  match e with
  | Endian.little => [x % 256, x / 256 % 256]
  | Endian.big => [x / 256 % 256, x % 256]

/-- Model of `u16::from_ne_bytes([b0, b1])` where `b0` is the byte that came
first in the stream. -/
def fromNeBytes (e : Endian) (b0 b1 : Nat) : Nat :=
  match e with
  | Endian.little => b0 + 256 * b1
  | Endian.big => 256 * b0 + b1

/-- The `ICMPMessage` struct from the source: a logical ICMP packet.
`data` is the payload byte sequence (the Rust borrowed slice). -/
structure ICMPMessage where
  type_ : Nat
  code : Nat
  checksum : Nat
  identifier : Nat
  sequence_number : Nat
  data : List Nat
deriving DecidableEq

/-- `ICMPMessage::as_bytes`: type (1B), code (1B), then checksum, identifier
and sequence number each via `to_ne_bytes` (host-native order), then the
payload. -/
def ICMPMessage.as_bytes (m : ICMPMessage) (e : Endian) : List Nat :=
  m.type_ :: m.code ::
    (toNeBytes e m.checksum ++ toNeBytes e m.identifier ++
      toNeBytes e m.sequence_number ++ m.data)

/-- `ICMPMessage::try_from_bytes`: reads bytes 0..7 (failing with `None` when
fewer than 8 bytes are present, mirroring `bytes.get(i)?`), decodes the three
16-bit fields with `from_ne_bytes`, and takes everything from offset 8 on as
the payload. -/
def ICMPMessage.try_from_bytes (e : Endian) (bytes : List Nat) :
    Option ICMPMessage :=
  match bytes with
  | b0 :: b1 :: b2 :: b3 :: b4 :: b5 :: b6 :: b7 :: rest =>
      Option.some
        { type_ := b0
          code := b1
          checksum := fromNeBytes e b2 b3
          identifier := fromNeBytes e b4 b5
          sequence_number := fromNeBytes e b6 b7
          data := rest }
  | _ => Option.none

/-- Modelled from the spec: the wire encoding with all multi-byte fields in
network (big-endian) byte order, the layout the spec demands of `encode`. -/
def networkOrderBytes (m : ICMPMessage) : List Nat :=
  m.type_ :: m.code ::
    ([m.checksum / 256 % 256, m.checksum % 256] ++
      [m.identifier / 256 % 256, m.identifier % 256] ++
      [m.sequence_number / 256 % 256, m.sequence_number % 256] ++ m.data)

/-- Model of Rust's `slice::chunks(2)`: splits a byte list into pairs, with a
final singleton when the length is odd. -/
def chunks2 : List Nat → List (List Nat)
  | [] => []
  | [a] => [[a]]
  | a :: b :: rest => [a, b] :: chunks2 rest

/-- The `for byte_pair in ... .chunks(2)` loop of `compute_checksum`: folds
the 16-bit words (assembled with `from_ne_bytes`, an odd trailing byte padded
with a zero upper byte) into a 16-bit running sum, counting overflows.
Returns the pair (checksum, overflows). -/
def checksum_fold (e : Endian) : List (List Nat) → Nat → Nat → Nat × Nat
  | [], checksum, overflows => (checksum, overflows)
  | pair :: rest, checksum, overflows =>
    match pair with
    | [lower, upper] =>
        let s := checksum + fromNeBytes e lower upper
        checksum_fold e rest (s % 65536)
          (if 65536 ≤ s then (overflows + 1) % 65536 else overflows)
    | [lower] =>
        let s := checksum + fromNeBytes e lower 0
        checksum_fold e rest (s % 65536)
          (if 65536 ≤ s then (overflows + 1) % 65536 else overflows)
    | _ => checksum_fold e rest checksum overflows

/-- `compute_checksum`: zeroes the checksum field, sums the 16-bit words of
the serialised message with end-around carry (adding the overflow count back
in, plus one more if that addition itself overflows), and complements the
result (`!checksum` on a `u16` is `65535 - checksum`). -/
def compute_checksum (e : Endian) (msg : ICMPMessage) : Nat :=
  let zeroed : ICMPMessage := { msg with checksum := 0 }
  let p := checksum_fold e (chunks2 (zeroed.as_bytes e)) 0 0
  let s := p.1 + p.2
  let c := if 65536 ≤ s then s % 65536 + 1 else s
  65535 - c

/-- Result of `extract_icmp_message` on a raw datagram: `payload` is the Rust
`Some(&bytes[header_size..])`, `fail` is the `None` produced by
`bytes.get(0)?` on an empty input, and `panicked` is the panic raised by the
slice index `&bytes[header_size..]` when `header_size > bytes.len()`. -/
inductive ExtractResult where
  | payload (bytes : List Nat)
  | fail
  | panicked
deriving DecidableEq

/-- `extract_icmp_message`: reads the low 4 bits of byte 0 as the IHL, and
evaluates `&bytes[internet_header_length * 4 ..]`.  Rust's range slice
panics when the start index exceeds the slice length; it does not return
`None` there. -/
def extract_icmp_message (bytes : List Nat) : ExtractResult :=
  match bytes.head? with
  | Option.none => ExtractResult.fail
  | Option.some b0 =>
    let internet_header_length := b0 % 16
    let header_size := internet_header_length * 4
    if header_size ≤ bytes.length then ExtractResult.payload (bytes.drop header_size)
    else ExtractResult.panicked

/-- `extract_ttl`: evaluates `bytes[8]`.  `Option.some` is the read value;
`Option.none` models the panic raised when the slice has fewer than 9
bytes. -/
def extract_ttl (bytes : List Nat) : Option Nat :=
  bytes[8]?

/-- Outcome of the body of `receive_echo_reply` after a datagram has been
read from the socket: `accepted` is `Some((msg, ttl))`, `rejected` is the
`None` that the probe loop records as a lost attempt, and `panicked` models
a panic inside `extract_icmp_message` or `extract_ttl`. -/
inductive RecvResult where
  | accepted (msg : ICMPMessage) (ttl : Nat)
  | rejected
  | panicked
deriving DecidableEq

/-- `receive_echo_reply`, after `socket.recv` has produced `datagram`
(`&buffer[..length]`): unwraps the IP datagram, reads the "ttl" byte — note
the source passes the ICMP slice `bytes`, not the full datagram, to
`extract_ttl` — decodes the ICMP message, and accepts it exactly when the
recomputed checksum matches the received checksum field and the payload
equals `data_sent`. -/
def receive_echo_reply (e : Endian) (datagram data_sent : List Nat) :
    RecvResult :=
  match extract_icmp_message datagram with
  | ExtractResult.fail => RecvResult.rejected
  | ExtractResult.panicked => RecvResult.panicked
  | ExtractResult.payload bytes =>
    match extract_ttl bytes with
    | Option.none => RecvResult.panicked
    | Option.some ttl =>
      match ICMPMessage.try_from_bytes e bytes with
      | Option.none => RecvResult.rejected
      | Option.some msg =>
        if msg.checksum = compute_checksum e msg ∧ msg.data = data_sent
        then RecvResult.accepted msg ttl
        else RecvResult.rejected

/-- State of the raw socket produced by `connect_to`: whether the `connect`
call succeeded.  The source discards the `connect` result with `.ok()`, so
the socket is returned either way. -/
structure Socket where
  connected : Bool
deriving DecidableEq

/-- `connect_to`, modelled over the outcomes of its three OS calls:
`Socket::new` and `set_read_timeout` failures hit `.expect(...)` and abort
the process (modelled as `Except.error` carrying the panic message), while a
`connect` failure is discarded by `.ok()` and the socket is returned
anyway. -/
def connect_to (socketNewOk setTimeoutOk connectOk : Bool) :
    Except String Socket :=
  if socketNewOk = false then Except.error "Invalid socket configuration."
  else if setTimeoutOk = false then
    Except.error "Failed to set timeout on socket."
  else Except.ok { connected := connectOk }

/-- The `Transmission` struct: outcome of one attempt.  `round_trip_time` is
in nanoseconds. -/
structure Transmission where
  received : Bool
  round_trip_time : Nat
deriving DecidableEq

/-- `done`: the loop guard.  With a configured maximum the loop stops once
the number of transmissions reaches it; with none it never signals done. -/
def done (transmitted : Nat) (max_transmitted : Option Nat) : Bool :=
  match max_transmitted with
  | Option.some max => decide (max ≤ transmitted)
  | Option.none => false

/-- The body of one iteration of the `while` loop in `ping_address`:
`recv i` is the datagram `socket.recv` produced at iteration `i`
(`Option.none` for a timeout or receive error, which `receive_echo_reply`
turns into its `None`, recorded as a lost attempt), `data_sent i` the random
payload generated for that iteration, and `rtt i` the timer's elapsed value.
An accepted reply records `received = true`, a rejected one `received =
false`; a `panicked` result of `receive_echo_reply` (truncated datagram or
8-byte ICMP slice) kills the process mid-loop, modelled as `Option.none`. -/
def ping_iteration (e : Endian) (recv : Nat → Option (List Nat))
    (data_sent : Nat → List Nat) (rtt : Nat → Nat) (i : Nat) :
    Option Transmission :=
  match recv i with
  | Option.none => Option.some ⟨false, rtt i⟩
  | Option.some dg =>
    match receive_echo_reply e dg (data_sent i) with
    | RecvResult.accepted m t => Option.some ⟨true, rtt i⟩
    | RecvResult.rejected => Option.some ⟨false, rtt i⟩
    | RecvResult.panicked => Option.none

/-- The `while !done(..)` loop of `ping_address` for a configured maximum
`max` (the `Some` case of `max_transmitted`; with `None` the source loops
until externally interrupted).  `outcome i` is the send/receive cycle of the
iteration whose sequence number is `i = transmissions.len()` (instantiated
with `ping_iteration`): `Option.some t` appends exactly one `Transmission`,
while `Option.none` — an iteration whose receive path panicked — aborts the
whole session, so that nothing is handed to `print_stats`. -/
def ping_loop (outcome : Nat → Option Transmission) (max : Nat)
    (acc : List Transmission) : Option (List Transmission) :=
  if h : done acc.length (Option.some max) = true then Option.some acc
  else
    match outcome acc.length with
    | Option.none => Option.none
    | Option.some t => ping_loop outcome max (acc ++ [t])
termination_by max - acc.length
decreasing_by
  simp only [done, decide_eq_true_eq, Bool.not_eq_true] at h
  simp only [List.length_append, List.length_cons, List.length_nil]
  omega

/-- `ping_address` with `max_transmitted = Some max`: runs the probe loop
starting from an empty transmission list; `Option.some` carries the list
handed to `print_stats`, `Option.none` a session that died in a mid-loop
panic before reaching it. -/
def ping_address (outcome : Nat → Option Transmission) (max : Nat) :
    Option (List Transmission) :=
  ping_loop outcome max []

/-- The `received` count in `print_stats`:
`transmissions.iter().filter(|t| t.received).count()`. -/
def received_count (ts : List Transmission) : Nat :=
  (ts.filter (fun t => t.received)).length

/-- The packet-loss computation of `print_stats`:
`100.0 - (received as f64 / transmitted as f64 * 100.0)`.  The `f64` value
is modelled in `ℚ`; `Option.none` models the NaN produced by the `0.0/0.0`
division when no attempt was transmitted (the `length` guard in the source
protects only `rtt_avg`, not this expression).  For `transmitted > 0` the
boundary values 0 and 100 are exact even in `f64`. -/
def packet_loss (ts : List Transmission) : Option ℚ :=
  if ts.length = 0 then Option.none
  else Option.some
    (100 - ((received_count ts : ℚ) / (ts.length : ℚ) * 100))

/-- `rtt_min` from `print_stats`: minimum of `round_trip_time` over all
transmissions (no filter on `received`), `unwrap_or_default` giving 0 for an
empty session. -/
def rtt_min (ts : List Transmission) : Nat :=
  ((ts.map (fun t => t.round_trip_time)).min?).getD 0

/-- `rtt_max` from `print_stats`: maximum over all transmissions. -/
def rtt_max (ts : List Transmission) : Nat :=
  ((ts.map (fun t => t.round_trip_time)).max?).getD 0

/-- `rtt_avg` from `print_stats`: the `Duration` sum over all transmissions
divided (truncating, at nanosecond precision) by
`if transmitted > 0 { transmitted } else { 1 }`. -/
def rtt_avg (ts : List Transmission) : Nat :=
  (ts.map (fun t => t.round_trip_time)).sum /
    (if 0 < ts.length then ts.length else 1)

/-- Comparator (spec side): the minimum restricted to received attempts
only, used to show the source does NOT compute this. -/
def rtt_min_received_only (ts : List Transmission) : Nat :=
  (((ts.filter (fun t => t.received)).map
      (fun t => t.round_trip_time)).min?).getD 0

/-- Comparator (spec side): the maximum restricted to received attempts
only. -/
def rtt_max_received_only (ts : List Transmission) : Nat :=
  (((ts.filter (fun t => t.received)).map
      (fun t => t.round_trip_time)).max?).getD 0

/-- Arithmetic mean of a list of rationals (0 for the empty list, by the
division-by-zero convention of `ℚ`). -/
def listMean (xs : List ℚ) : ℚ := xs.sum / (xs.length : ℚ)

/-- Population variance: mean squared deviation divided by `n` (not
`n - 1`). -/
def populationVariance (xs : List ℚ) : ℚ :=
  (xs.map (fun x => (x - listMean xs) ^ 2)).sum / (xs.length : ℚ)

/-- Sample (Bessel-corrected) variance: divides by `n - 1`; used only as a
comparator to show which convention the program follows. -/
def sampleVariance (xs : List ℚ) : ℚ :=
  (xs.map (fun x => (x - listMean xs) ^ 2)).sum / ((xs.length : ℚ) - 1)

/-- Modelled from the spec: `rtt_mdev` is produced by `stats::stddev` from
the external `stats` crate (its source is not part of this repository); the
spec fixes it as the population standard deviation of `round_trip_time`
over all transmissions.  We track its square (the population variance),
which determines it, to stay in exact arithmetic. -/
def rtt_mdev_sq (ts : List Transmission) : ℚ :=
  populationVariance (ts.map (fun t => (t.round_trip_time : ℚ)))

/-- Decoding succeeds exactly on inputs with at least the 8 header bytes,
and the payload is everything after them; hence the input length is 8 plus
the payload length. -/
theorem try_from_bytes_length (e : Endian) (p : List Nat) (msg : ICMPMessage)
    (h : ICMPMessage.try_from_bytes e p = Option.some msg) :
    p.length = 8 + msg.data.length := by
  unfold ICMPMessage.try_from_bytes at h
  split at h
  · injection h with h2
    subst h2
    simp only [List.length_cons]
    omega
  · exact Option.noConfusion h

/-- C7: for every EchoMessage with in-range 16-bit fields, decoding the
bytes produced by encoding it yields the message again, the payload being
every byte after the 8-byte header; this holds on hosts of either
endianness because `try_from_bytes` reads with the same native byte order
`as_bytes` wrote with. -/
theorem claim7_roundtrip (e : Endian) (m : ICMPMessage)
    (h1 : m.checksum < 65536) (h2 : m.identifier < 65536)
    (h3 : m.sequence_number < 65536) :
    ICMPMessage.try_from_bytes e (m.as_bytes e) = Option.some m := by
  obtain ⟨t, c, ck, id, sq, da⟩ := m
  have hc : ck < 65536 := h1
  have hi : id < 65536 := h2
  have hs : sq < 65536 := h3
  cases e <;>
    simp only [ICMPMessage.as_bytes, toNeBytes, List.cons_append,
      List.nil_append, ICMPMessage.try_from_bytes, fromNeBytes,
      Option.some.injEq, ICMPMessage.mk.injEq, true_and, and_true] <;>
    omega

/-- C7 witness: a concrete round trip through the codec on a big-endian
host. -/
theorem claim7_witness :
    (513 : Nat) < 65536 ∧ (65535 : Nat) < 65536 ∧ (2 : Nat) < 65536 ∧
    ICMPMessage.try_from_bytes Endian.big
        (ICMPMessage.as_bytes ⟨8, 0, 513, 65535, 2, [1, 2, 3]⟩ Endian.big) =
      Option.some ⟨8, 0, 513, 65535, 2, [1, 2, 3]⟩ :=
  ⟨by decide, by decide, by decide,
    claim7_roundtrip Endian.big ⟨8, 0, 513, 65535, 2, [1, 2, 3]⟩
      (by decide) (by decide) (by decide)⟩

/-- C1: a nonempty raw datagram shorter than the header length declared in
its IHL nibble makes `extract_icmp_message` evaluate the slice expression
out of range, i.e. panic — it does not return `None`; for a datagram at
least that long it returns exactly the bytes from offset
`header_length_words * 4` to the end. -/
theorem claim1_short_datagram :
    extract_icmp_message [69] = ExtractResult.panicked
  ∧ 69 % 16 * 4 = 20
  ∧ ([69] : List Nat).length < 20
  ∧ extract_icmp_message (List.replicate 20 69 ++ [7, 8]) =
      ExtractResult.payload [7, 8]
  ∧ extract_icmp_message [] = ExtractResult.fail := by decide

/-- The message used to exhibit the byte-order divergence: identifier
0x0102. -/
def msgC3 : ICMPMessage := ⟨8, 0, 0, 258, 0, []⟩

/-- C3: `as_bytes` writes multi-byte fields with `to_ne_bytes`, so on a
little-endian host the identifier 0x0102 is laid out low byte first —
host order, not the network (big-endian) order the claim requires; the
encoding agrees with network order only on big-endian hosts. -/
theorem claim3_host_order :
    ICMPMessage.as_bytes msgC3 Endian.little = [8, 0, 0, 0, 2, 1, 0, 0]
  ∧ networkOrderBytes msgC3 = [8, 0, 0, 0, 1, 2, 0, 0]
  ∧ ICMPMessage.as_bytes msgC3 Endian.little ≠ networkOrderBytes msgC3
  ∧ ICMPMessage.as_bytes msgC3 Endian.big = networkOrderBytes msgC3 := by
  decide

/-- C5 counterexample: a failed `connect` call is not fatal — `connect_to`
discards the error with `.ok()` and hands back the (unconnected) socket, so
the session continues. -/
theorem claim5_counterexample :
    connect_to true true false = Except.ok { connected := false } := rfl

/-- C5 amended: failures of raw-socket creation and of setting the read
timeout are fatal, aborting with a distinct labeled message before any
attempt is recorded, but a failure of the `connect` call is silently
ignored and the session proceeds with an unconnected socket. -/
theorem claim5_setup_failures :
    connect_to false true true = Except.error "Invalid socket configuration."
  ∧ connect_to false false false =
      Except.error "Invalid socket configuration."
  ∧ connect_to true false true =
      Except.error "Failed to set timeout on socket."
  ∧ connect_to true true false = Except.ok { connected := false }
  ∧ connect_to true true true = Except.ok { connected := true } :=
  ⟨rfl, rfl, rfl, rfl, rfl⟩

/-- A 20-byte IP header (IHL = 5, i.e. first byte 0x45 = 69) whose TTL
field — byte offset 8 of the datagram — is 64. -/
def header20 : List Nat :=
  [69, 0, 0, 0, 0, 0, 0, 0, 64, 0, 0, 0, 0, 0, 0, 0, 0, 0, 0, 0]

/-- A valid ICMP echo reply (type 0) with payload [99]; its checksum field
0xFF9C (little-endian bytes [156, 255]) matches `compute_checksum` on a
little-endian host. -/
def icmpReplyA : List Nat := [0, 0, 156, 255, 0, 0, 0, 0, 99]

/-- Full raw datagram: 20-byte IP header followed by `icmpReplyA`. -/
def dgA : List Nat := header20 ++ icmpReplyA

/-- The decoded form of `icmpReplyA` on a little-endian host. -/
def msgA : ICMPMessage := ⟨0, 0, 65436, 0, 0, [99]⟩

/-- C4: the value reported as "ttl" is byte offset 8 of the ICMP slice (the
first payload byte, here 99), not byte offset 8 of the full IP datagram
(the real TTL field, here 64): `receive_echo_reply` hands the stripped
ICMP bytes, not the datagram, to `extract_ttl`. -/
theorem claim4_ttl_wrong_offset :
    receive_echo_reply Endian.little dgA [99] = RecvResult.accepted msgA 99
  ∧ dgA[8]? = Option.some 64
  ∧ (99 : Nat) ≠ 64 := by decide

/-- C6: a reply is accepted only if the checksum recomputed with the
checksum field zeroed equals the received checksum field and the payload
equals the transmitted payload byte-for-byte; and a decoded reply whose
payload has the transmitted payload's length but differs from it (even in
a single byte) makes `receive_echo_reply` return the `None` that the probe
loop records as a lost attempt. -/
theorem claim6_validation (e : Endian) (dg ds : List Nat) :
    (∀ msg ttl, receive_echo_reply e dg ds = RecvResult.accepted msg ttl →
      msg.checksum = compute_checksum e msg ∧ msg.data = ds)
  ∧ (∀ p msg, extract_icmp_message dg = ExtractResult.payload p →
      ICMPMessage.try_from_bytes e p = Option.some msg →
      msg.data.length = ds.length → ds ≠ [] → msg.data ≠ ds →
      receive_echo_reply e dg ds = RecvResult.rejected) := by
  constructor
  · intro msg ttl h
    unfold receive_echo_reply at h
    split at h
    · exact absurd h (by simp)
    · exact absurd h (by simp)
    · split at h
      · exact absurd h (by simp)
      · split at h
        · exact absurd h (by simp)
        · split at h
          · rename_i hcond
            injection h with hm ht
            subst hm
            exact hcond
          · exact absurd h (by simp)
  · intro p msg hE hD hlen hds hneq
    have hp := try_from_bytes_length e p msg hD
    have hd0 : ds.length ≠ 0 := fun h0 => hds (List.length_eq_zero.mp h0)
    have h9 : 8 < p.length := by omega
    obtain ⟨t, ht⟩ : ∃ t, extract_ttl p = Option.some t :=
      ⟨p[8], by unfold extract_ttl; rw [List.getElem?_eq_getElem h9]⟩
    simp only [receive_echo_reply, hE, ht, hD]
    rw [if_neg (fun hc => hneq hc.2)]

/-- C6 witness: the reply `icmpReplyA` (payload [99]) against a transmitted
payload [98] that differs in exactly one byte is rejected, checksum
validity notwithstanding. -/
theorem claim6_witness :
    receive_echo_reply Endian.little dgA [98] = RecvResult.rejected :=
  (claim6_validation Endian.little dgA [98]).2 icmpReplyA msgA
    (by decide) (by decide) (by decide) (by decide) (by decide)

/-- An 8-byte ICMP message (empty payload) with a self-consistent checksum
(0xFFFF, the complement of a zero sum). -/
def icmpReplyB : List Nat := [0, 0, 255, 255, 0, 0, 0, 0]

/-- Full raw datagram wrapping `icmpReplyB`. -/
def dgB : List Nat := header20 ++ icmpReplyB

/-- The decoded form of `icmpReplyB` on a little-endian host. -/
def msgB : ICMPMessage := ⟨0, 0, 65535, 0, 0, []⟩

/-- C10 counterexample: a reply that decodes to a message with a
self-consistent checksum and a payload equal to the transmitted (empty)
payload is nevertheless not recorded as received — the out-of-range "ttl"
read `bytes[8]` on the 8-byte ICMP slice panics first. -/
theorem claim10_counterexample :
    ICMPMessage.try_from_bytes Endian.little icmpReplyB = Option.some msgB
  ∧ msgB.checksum = compute_checksum Endian.little msgB
  ∧ msgB.data = ([] : List Nat)
  ∧ receive_echo_reply Endian.little dgB [] = RecvResult.panicked := by
  decide

/-- C10 amended: reply acceptance never inspects the type, code, identifier
or sequence-number fields — any decoded message (those four fields
arbitrary) with a self-consistent checksum and a payload equal to the
transmitted one is accepted, provided the ICMP slice is long enough
(at least 9 bytes) for the "ttl" byte read not to panic. -/
theorem claim10_amended (e : Endian) (dg ds p : List Nat)
    (msg : ICMPMessage) (ttl : Nat)
    (hE : extract_icmp_message dg = ExtractResult.payload p)
    (hT : extract_ttl p = Option.some ttl)
    (hD : ICMPMessage.try_from_bytes e p = Option.some msg)
    (hC : msg.checksum = compute_checksum e msg)
    (hP : msg.data = ds) :
    receive_echo_reply e dg ds = RecvResult.accepted msg ttl := by
  simp only [receive_echo_reply, hE, hT, hD]
  rw [if_pos ⟨hC, hP⟩]

/-- An ICMP echo request (type 8, the probe's own looped-back shape) with
identifier 5, sequence number 7, payload [42], and a checksum that is
self-consistent on a little-endian host. -/
def icmpRequestW : List Nat := [8, 0, 193, 255, 5, 0, 7, 0, 42]

/-- Full raw datagram wrapping `icmpRequestW`. -/
def dgW : List Nat := header20 ++ icmpRequestW

/-- The decoded form of `icmpRequestW` on a little-endian host. -/
def msgW : ICMPMessage := ⟨8, 0, 65473, 5, 7, [42]⟩

/-- C10 witness: an Echo Request (type 8) with a foreign identifier and
sequence number, matching payload and a valid checksum is accepted. -/
theorem claim10_witness :
    receive_echo_reply Endian.little dgW [42] = RecvResult.accepted msgW 42 :=
  claim10_amended Endian.little dgW [42] icmpRequestW msgW 42
    (by decide) (by decide) (by decide) (by decide) (by decide)

/-- C2 counterexample: with zero recorded attempts the loss computation
divides 0.0 by 0.0, producing NaN (modelled `Option.none`) — not the
defined value 0 the claim states. -/
theorem claim2_counterexample :
    packet_loss [] = Option.none ∧ packet_loss [] ≠ Option.some 0 := by
  refine ⟨rfl, ?_⟩
  simp [packet_loss]

/-- C2 amended: for a session with zero attempts the packet-loss value is
NaN (undefined), not 0; for every non-empty session it equals
`100 * (1 - received_count / transmitted_count)`, which is 0 when every
attempt was received and 100 when none was. -/
theorem claim2_loss (ts : List Transmission) (h : ts ≠ []) :
    packet_loss ts =
      Option.some (100 * (1 - (received_count ts : ℚ) / (ts.length : ℚ)))
  ∧ ((∀ t ∈ ts, t.received = true) → packet_loss ts = Option.some 0)
  ∧ ((∀ t ∈ ts, t.received = false) → packet_loss ts = Option.some 100)
  ∧ packet_loss [] = Option.none := by
  have hl : ts.length ≠ 0 := fun h0 => h (List.length_eq_zero.mp h0)
  have hqc : (ts.length : ℚ) ≠ 0 := Nat.cast_ne_zero.mpr hl
  refine ⟨?_, ?_, ?_, rfl⟩
  · simp only [packet_loss, if_neg hl]
    congr 1
    ring
  · intro hall
    have hr : received_count ts = ts.length := by
      unfold received_count
      rw [List.filter_eq_self.mpr hall]
    simp only [packet_loss, if_neg hl, hr]
    congr 1
    rw [div_self hqc]
    ring
  · intro hall
    have hr : received_count ts = 0 := by
      unfold received_count
      have : ts.filter (fun t => t.received) = [] := by
        rw [List.filter_eq_nil_iff]
        intro a ha
        simp [hall a ha]
      rw [this]
      rfl
    simp only [packet_loss, if_neg hl, hr]
    congr 1
    push_cast
    rw [zero_div]
    ring

/-- A one-attempt session whose attempt was received. -/
def tsOne : List Transmission := [⟨true, 5⟩]

/-- C2 witness: for the non-empty all-received session `tsOne` the loss is
0. -/
theorem claim2_witness :
    tsOne ≠ [] ∧ packet_loss tsOne = Option.some 0 :=
  ⟨by decide, (claim2_loss tsOne (by decide)).2.1 (by decide)⟩

/-- The probe loop starting from any transmission list not longer than the
configured maximum, with every iteration it can still run returning
normally (no panic), ends with exactly `max` transmissions: each iteration
appends exactly one `Transmission` and the guard stops precisely when the
count reaches `max`. -/
theorem ping_loop_length (outcome : Nat → Option Transmission) (max : Nat) :
    ∀ fuel acc, acc.length ≤ max → max - acc.length ≤ fuel →
      (∀ i, i < max → (outcome i).isSome = true) →
      ∃ l, ping_loop outcome max acc = Option.some l ∧ l.length = max := by
  intro fuel
  induction fuel with
  | zero =>
    intro acc h1 h2 hsome
    have hd : done acc.length (Option.some max) = true := by
      simp only [done, decide_eq_true_eq]
      omega
    unfold ping_loop
    rw [dif_pos hd]
    exact ⟨acc, rfl, by omega⟩
  | succ n ih =>
    intro acc h1 h2 hsome
    unfold ping_loop
    by_cases hd : done acc.length (Option.some max) = true
    · rw [dif_pos hd]
      simp only [done, decide_eq_true_eq] at hd
      exact ⟨acc, rfl, by omega⟩
    · rw [dif_neg hd]
      simp only [done, decide_eq_true_eq] at hd
      obtain ⟨t, ht⟩ :=
        Option.isSome_iff_exists.mp (hsome acc.length (by omega))
      rw [ht]
      apply ih
      · simp only [List.length_append, List.length_cons, List.length_nil]
        omega
      · simp only [List.length_append, List.length_cons, List.length_nil]
        omega
      · exact hsome

/-- An iteration fed the 8-byte matching reply `dgB` with an empty
transmitted payload: `receive_echo_reply` panics at the `bytes[8]` read, so
the iteration aborts the session. -/
def outcomePanic : Nat → Option Transmission :=
  ping_iteration Endian.little (fun i => Option.some dgB) (fun i => [])
    (fun i => 0)

/-- C8 counterexample: a session configured with maximum attempt count 1
whose first iteration receives `dgB` (a checksum-valid 8-byte reply
matching the empty transmitted payload) dies in the mid-loop `bytes[8]`
panic — `ping_address` yields no transmission vector at all, rather than
one of length 1. -/
theorem claim8_counterexample :
    ping_address outcomePanic 1 = Option.none
  ∧ outcomePanic 0 = Option.none
  ∧ receive_echo_reply Endian.little dgB [] = RecvResult.panicked := by
  have h0 : outcomePanic 0 = Option.none := by decide
  refine ⟨?_, h0, by decide⟩
  unfold ping_address ping_loop
  rw [dif_neg (by decide)]
  simp only [List.length_nil, h0]

/-- C8 amended: for every session configured with a maximum attempt count
`n` (including `n = 0`) whose iterations all return normally — none hits
the reachable receive-path panics — the probe loop terminates after
exactly `n` iterations and the vector handed to the statistics code has
length exactly `n`; an iteration that panics instead aborts the session
mid-loop and nothing reaches `print_stats`. -/
theorem claim8_loop_length (outcome : Nat → Option Transmission) (n : Nat)
    (h : ∀ i, i < n → (outcome i).isSome = true) :
    ∃ l, ping_address outcome n = Option.some l ∧ l.length = n := by
  unfold ping_address
  exact ping_loop_length outcome n n [] (by simp) (by simp) h

/-- An iteration fed the accepted looped-back request `dgW` with matching
payload [42]: every iteration returns normally. -/
def outcomeOk : Nat → Option Transmission :=
  ping_iteration Endian.little (fun i => Option.some dgW) (fun i => [42])
    (fun i => 10)

/-- C8 witness: with panic-free iterations (each receiving the accepted
`dgW`) and maximum 2, the session completes and hands over exactly 2
transmissions. -/
theorem claim8_witness :
    (∀ i, i < 2 → (outcomeOk i).isSome = true)
  ∧ ∃ l, ping_address outcomeOk 2 = Option.some l ∧ l.length = 2 :=
  ⟨fun i hi => rfl, claim8_loop_length outcomeOk 2 (fun i hi => rfl)⟩

/-- A two-attempt session: one received attempt with RTT 10 ns and one lost
attempt with RTT 100 ns. -/
def exPair : List Transmission := [⟨true, 10⟩, ⟨false, 100⟩]

/-- The spec's worked example: RTT samples 10, 20, 30, 40. -/
def exQuad : List ℚ := [10, 20, 30, 40]

/-- C9: for every non-empty session, `rtt_min`, `rtt_max`, `rtt_avg` and
the mdev (tracked via its square) are all computed over the same attempt
set — all attempts, including those with `received = false` — and the mdev
is the population, not Bessel-corrected, standard deviation of that set.
On `exPair` the maximum is the lost attempt's 100, whereas the
received-only restriction would give 10; on the spec's `exQuad` example
the population variance is 125 (stddev ≈ 11.18) while the sample variance
differs. -/
theorem claim9_stats (ts : List Transmission) (h : ts ≠ []) :
    rtt_min ts = ((ts.map (fun t => t.round_trip_time)).min?).getD 0
  ∧ rtt_max ts = ((ts.map (fun t => t.round_trip_time)).max?).getD 0
  ∧ rtt_avg ts = (ts.map (fun t => t.round_trip_time)).sum / ts.length
  ∧ rtt_mdev_sq ts =
      populationVariance (ts.map (fun t => (t.round_trip_time : ℚ)))
  ∧ rtt_max exPair = 100
  ∧ rtt_max_received_only exPair = 10
  ∧ rtt_min exPair = 10
  ∧ rtt_avg exPair = 55
  ∧ populationVariance exQuad = 125
  ∧ sampleVariance exQuad = 500 / 3
  ∧ populationVariance exQuad ≠ sampleVariance exQuad := by
  have hl : 0 < ts.length := List.length_pos.mpr h
  refine ⟨rfl, rfl, ?_, rfl, by decide, by decide, by decide, by decide,
    ?_, ?_, ?_⟩
  · simp only [rtt_avg, if_pos hl]
  · norm_num [populationVariance, listMean, exQuad]
  · norm_num [sampleVariance, listMean, exQuad]
  · norm_num [populationVariance, sampleVariance, listMean, exQuad]

/-- C9 witness: on the concrete session `exPair` the maximum ranges over
the lost attempt as well. -/
theorem claim9_witness :
    exPair ≠ [] ∧ rtt_max exPair = 100 ∧ rtt_max_received_only exPair = 10 := by
  have h := claim9_stats exPair (by decide)
  exact ⟨by decide, h.2.2.2.2.1, h.2.2.2.2.2.1⟩
